import Mathlib

/-!
# Verification of the bug-hunter watchdog (src/tools/bug_hunter.py)

A shallow embedding of the watchdog subsystem: the verdict classification
performed in `ParallelBugHunter._check_file` (lines 193-208), the analyzer
wrapper `BugHunterTool.run_impl` (lines 42-87), the per-file check
`_check_file` (lines 171-211), the workspace enumeration
`_get_python_files` (lines 156-169), one iteration of `_monitor_loop`
(lines 131-154), and the `start`/`stop` lifecycle (lines 111-129).

Python strings are modelled as `List Char` (`PyStr`); `str.lower()` as a
character-wise `Char.toLower` map; the substring operator `in` as
`hasSubstring`; sets of paths as `Finset PyStr`.  The external model
service is an opaque collaborator: its response to the one `generate`
call an analysis makes is an explicit input (`GenerateResult`).
-/

namespace BugHunter

/-- A Python string, modelled as its list of characters. -/
abbrev PyStr := List Char

/-- Python `str.lower()` (character-wise lowercasing). -/
def pyLower (s : PyStr) : PyStr := s.map Char.toLower

/-- Python's substring operator `needle in haystack` on strings. -/
def hasSubstring (needle : PyStr) : PyStr → Bool
  | [] => needle.isPrefixOf []
  | c :: rest => needle.isPrefixOf (c :: rest) || hasSubstring needle rest

/-- Outcome of the single external-service call made by
`BugHunterTool.run_impl` (src/tools/bug_hunter.py lines 63-70): the call
returns a usable first text result, returns nothing usable (empty list or
a non-text first element), or raises an exception whose `str(e)` is the
given message. -/
inductive GenerateResult where
  | success (text : PyStr)
  | emptyResponse
  | raises (msg : PyStr)
  deriving DecidableEq, Repr

/-- The `tool_output` string produced by `BugHunterTool.run_impl`
(src/tools/bug_hunter.py lines 63-87): the first text result on success,
the literal failure string when the response is unusable, and
`"Error during analysis: " + str(e)` when the generate call raises (the
exception is caught at line 82 and never propagates). -/
def run_impl (gen : GenerateResult) : PyStr :=
  match gen with
  | .success t => t
  | .emptyResponse => "Failed to analyze code".toList
  | .raises e => "Error during analysis: ".toList ++ e

/-- The structured verdict the spec's Verdict Classifier attaches to a
report text.  The code has no `Error` constructor: a failed service call
already became an ordinary report string inside `run_impl`. -/
inductive AnalysisVerdict where
  | NoBugs
  | BugsFound
  | Unknown
  | Inconclusive
  deriving DecidableEq, Repr

/-- The `"bugs_found"` marker tested first at line 194. -/
def marker_bugs_found : PyStr := "bugs_found".toList

/-- The `"no_bugs"` marker tested second at line 200. -/
def marker_no_bugs : PyStr := "no_bugs".toList

/-- The fallback indicator words of src/tools/bug_hunter.py line 204. -/
def bug_indicators : List PyStr :=
  ["error".toList, "bug".toList, "issue".toList, "problem".toList,
   "fix".toList, "wrong".toList, "incorrect".toList, "fails".toList]

/-- The verdict classification inlined in `ParallelBugHunter._check_file`
(src/tools/bug_hunter.py lines 193-208): lowercase the report, test the
`bugs_found` marker, then the `no_bugs` marker, then scan for any fallback
indicator word; otherwise the report is inconclusive. -/
def classify (reportText : PyStr) : AnalysisVerdict :=
  let t := pyLower reportText
  if marker_bugs_found.isPrefixOf t then .BugsFound
  else if marker_no_bugs.isPrefixOf t then .NoBugs
  else if bug_indicators.any (fun ind => hasSubstring ind t) then .Unknown
  else .Inconclusive

/-- Outcome of the `open`/`read` of a file in `_check_file` (lines
178-179): either the decoded content, or an I/O exception (caught by the
handler at line 210). -/
inductive ReadResult where
  | ok (code : PyStr)
  | ioError
  deriving DecidableEq, Repr

/-- Observable effects of one `_check_file` call: whether the analyzer
(`bug_hunter_tool.run_impl`, line 191) was invoked, and the list of
`on_bugs_found` callback invocations (path, report text) it performed. -/
structure CheckResult where
  analyzeCalled : Bool
  callbackCalls : List (PyStr × PyStr)
  deriving DecidableEq, Repr

/-- `ParallelBugHunter._check_file` (src/tools/bug_hunter.py lines
171-211): skip files above 50000 bytes (line 175), skip on a read failure
(the exception reaches line 210), skip content shorter than 50 characters
(line 181); otherwise run the analyzer and dispatch on the classification
of its output, invoking `on_bugs_found` - when one is registered (`reg`) -
on the `bugs_found` marker branch and on the fallback-indicator branch,
with the original-case report text. -/
def check_file (reg : Bool) (path : PyStr) (size : Nat)
    (read : ReadResult) (gen : GenerateResult) : CheckResult :=
  if 50000 < size then ⟨false, []⟩
  else
    match read with
    | .ioError => ⟨false, []⟩
    | .ok code =>
      if code.length < 50 then ⟨false, []⟩
      else
        let output := run_impl gen
        match classify output with
        | .BugsFound => ⟨true, if reg then [(path, output)] else []⟩
        | .NoBugs => ⟨true, []⟩
        | .Unknown => ⟨true, if reg then [(path, output)] else []⟩
        | .Inconclusive => ⟨true, []⟩

/-- `ParallelBugHunter._get_python_files` (src/tools/bug_hunter.py lines
156-169).  The `os.walk` traversal is abstracted as the list of file paths
it would yield in order; `failAfter = some k` models an exception raised
after `k` entries were processed.  The `try`/`except` at lines 160-167
catches that exception inside the function, so the partial set collected
so far is returned - the failure never propagates to the caller. -/
def get_python_files (walkEntries : List PyStr) (failAfter : Option Nat) :
    Finset PyStr :=
  let seen := match failAfter with
    | none => walkEntries
    | some k => walkEntries.take k
  (seen.filter (fun f => (".py".toList).isSuffixOf f)).toFinset

/-- One iteration of `ParallelBugHunter._monitor_loop` (src/tools/
bug_hunter.py lines 135-148), given the previous `last_files` set and the
`current_files` snapshot returned by the enumeration: the first component
is `new_files = current_files - last_files` (line 139), each element of
which is passed to `_check_file` (line 145); the second component is the
`last_files` value after the cycle, which is replaced wholesale by the
snapshot (line 147). -/
def monitor_cycle (last current : Finset PyStr) :
    Finset PyStr × Finset PyStr :=
  (current \ last, current)

/-- Scheduler lifecycle state: the `is_running` flag (line 106) and the
number of live (not finished, not cancelled-and-awaited) monitor tasks. -/
structure SchedulerState where
  is_running : Bool
  liveTasks : Nat
  deriving DecidableEq, Repr

/-- `ParallelBugHunter.start` (src/tools/bug_hunter.py lines 111-118):
a no-op when already running (line 113-114); otherwise sets `is_running`
and spawns one monitor task. -/
def start (s : SchedulerState) : SchedulerState :=
  if s.is_running then s
  else { is_running := true, liveTasks := s.liveTasks + 1 }

/-- `ParallelBugHunter.stop` (src/tools/bug_hunter.py lines 120-129):
clears `is_running`, cancels the task if one is still live, and awaits it,
so no monitor task survives the call. -/
def stop (_s : SchedulerState) : SchedulerState :=
  { is_running := false, liveTasks := 0 }

/-- The lifecycle operations a caller can issue. -/
inductive Op where
  | opStart
  | opStop
  deriving DecidableEq, Repr

/-- Apply one lifecycle operation. -/
def applyOp (s : SchedulerState) : Op → SchedulerState
  | .opStart => start s
  | .opStop => stop s

/-- The state after running a sequence of lifecycle operations from the
initial state of `ParallelBugHunter.__init__` (lines 106-107):
`is_running = False`, no task. -/
def runOps (ops : List Op) : SchedulerState :=
  ops.foldl applyOp ⟨false, 0⟩

/-! ## Helper lemmas -/

/-- A boolean `isPrefixOf` witness yields an append decomposition. -/
theorem isPrefixOf_eq_append {l t : PyStr} (h : l.isPrefixOf t = true) :
    ∃ rest, t = l ++ rest := by
  induction l generalizing t with
  | nil => exact ⟨t, rfl⟩
  | cons a as ih =>
    cases t with
    | nil => exact Bool.noConfusion h
    | cons b bs =>
      have h' : (a == b && as.isPrefixOf bs) = true := h
      rw [Bool.and_eq_true] at h'
      obtain ⟨h1, h2⟩ := h'
      obtain ⟨rest, hrest⟩ := ih h2
      exact ⟨rest, by rw [List.cons_append, eq_of_beq h1, hrest]⟩

/-- One lifecycle operation preserves the task-count invariant: the number
of live monitor tasks is one exactly when the scheduler is running. -/
theorem applyOp_preserves_inv (s : SchedulerState)
    (h : s.liveTasks = if s.is_running then 1 else 0) (op : Op) :
    (applyOp s op).liveTasks = if (applyOp s op).is_running then 1 else 0 := by
  cases op with
  | opStart =>
    by_cases hr : s.is_running <;> simp [applyOp, start, hr] <;> simp [hr] at h <;> omega
  | opStop => simp [applyOp, stop]

/-- Folding lifecycle operations from any state satisfying the task-count
invariant keeps it. -/
theorem foldl_applyOp_inv (ops : List Op) (s : SchedulerState)
    (h : s.liveTasks = if s.is_running then 1 else 0) :
    (ops.foldl applyOp s).liveTasks =
      if (ops.foldl applyOp s).is_running then 1 else 0 := by
  induction ops generalizing s with
  | nil => exact h
  | cons op rest ih => exact ih (applyOp s op) (applyOp_preserves_inv s h op)

/-! ## Claim theorems -/

/-- C4: every report text whose lowercasing starts with the `bugs_found`
marker classifies as `BugsFound`, and an analyzed file (within the size
and length thresholds) producing such a report triggers exactly one
callback invocation carrying that file's path and the original report
text. -/
theorem bugs_found_marker_notifies_once (r p : PyStr) (size : Nat)
    (code : PyStr)
    (h : marker_bugs_found.isPrefixOf (pyLower r) = true)
    (hsize : size ≤ 50000) (hlen : 50 ≤ code.length) :
    classify r = .BugsFound ∧
    (check_file true p size (.ok code) (.success r)).callbackCalls =
      [(p, r)] := by
  have hc : classify r = .BugsFound := by simp [classify, h]
  have hs : ¬ (50000 < size) := by omega
  have hl : ¬ (code.length < 50) := by omega
  exact ⟨hc, by simp [check_file, hs, hl, run_impl, hc]⟩

/-- Witness for C4 at the spec's own scenario input. -/
theorem bugs_found_marker_notifies_once_witness :
    marker_bugs_found.isPrefixOf
      (pyLower ("BUGS_FOUND: off-by-one at line 3".toList)) = true ∧
    (100 : Nat) ≤ 50000 ∧ 50 ≤ (List.replicate 100 'a').length ∧
    (classify ("BUGS_FOUND: off-by-one at line 3".toList) = .BugsFound ∧
     (check_file true ("a.py".toList) 100 (.ok (List.replicate 100 'a'))
        (.success ("BUGS_FOUND: off-by-one at line 3".toList))).callbackCalls =
       [("a.py".toList, "BUGS_FOUND: off-by-one at line 3".toList)]) :=
  ⟨by decide, by decide, by decide,
   bugs_found_marker_notifies_once ("BUGS_FOUND: off-by-one at line 3".toList)
     ("a.py".toList) 100 (List.replicate 100 'a')
     (by decide) (by decide) (by decide)⟩

/-- C5: a report text whose lowercasing starts with neither marker but
contains the indicator word for errors classifies as `Unknown`, and an
analyzed file producing such a report takes the same notification path as
`BugsFound`: the registered callback is invoked for it. -/
theorem error_keyword_unknown_notifies (r p : PyStr) (size : Nat)
    (code : PyStr)
    (h1 : marker_bugs_found.isPrefixOf (pyLower r) = false)
    (h2 : marker_no_bugs.isPrefixOf (pyLower r) = false)
    (h3 : hasSubstring ("error".toList) (pyLower r) = true)
    (hsize : size ≤ 50000) (hlen : 50 ≤ code.length) :
    classify r = .Unknown ∧
    (check_file true p size (.ok code) (.success r)).callbackCalls =
      [(p, r)] := by
  have hany : bug_indicators.any (fun ind => hasSubstring ind (pyLower r)) = true := by
    simp only [bug_indicators, List.any_cons, Bool.or_eq_true]
    exact Or.inl h3
  have hc : classify r = .Unknown := by simp [classify, h1, h2, hany]
  have hs : ¬ (50000 < size) := by omega
  have hl : ¬ (code.length < 50) := by omega
  exact ⟨hc, by simp [check_file, hs, hl, run_impl, hc]⟩

/-- Witness for C5 on a markerless report containing the word error. -/
theorem error_keyword_unknown_notifies_witness :
    marker_bugs_found.isPrefixOf
      (pyLower ("I see an Error in this code".toList)) = false ∧
    marker_no_bugs.isPrefixOf
      (pyLower ("I see an Error in this code".toList)) = false ∧
    hasSubstring ("error".toList)
      (pyLower ("I see an Error in this code".toList)) = true ∧
    (100 : Nat) ≤ 50000 ∧ 50 ≤ (List.replicate 100 'a').length ∧
    (classify ("I see an Error in this code".toList) = .Unknown ∧
     (check_file true ("a.py".toList) 100 (.ok (List.replicate 100 'a'))
        (.success ("I see an Error in this code".toList))).callbackCalls =
       [("a.py".toList, "I see an Error in this code".toList)]) :=
  ⟨by decide, by decide, by decide, by decide, by decide,
   error_keyword_unknown_notifies ("I see an Error in this code".toList)
     ("a.py".toList) 100 (List.replicate 100 'a')
     (by decide) (by decide) (by decide) (by decide) (by decide)⟩

/-- C6: a report text whose lowercasing starts with the `no_bugs` marker
classifies as `NoBugs` and never reaches the callback, even though such a
text necessarily contains the fallback indicator word for bugs - the
marker branches are tested before the fallback keyword scan. -/
theorem no_bugs_marker_no_callback (reg : Bool) (r p : PyStr) (size : Nat)
    (code : PyStr)
    (h : marker_no_bugs.isPrefixOf (pyLower r) = true) :
    classify r = .NoBugs ∧
    hasSubstring ("bug".toList) (pyLower r) = true ∧
    (check_file reg p size (.ok code) (.success r)).callbackCalls = [] := by
  obtain ⟨rest, hrest⟩ := isPrefixOf_eq_append h
  have hb : marker_bugs_found.isPrefixOf (pyLower r) = false := by
    rw [hrest]; rfl
  have hc : classify r = .NoBugs := by simp [classify, hb, h]
  refine ⟨hc, by rw [hrest]; rfl, ?_⟩
  by_cases hs : 50000 < size
  · simp [check_file, hs]
  · by_cases hl : code.length < 50
    · simp [check_file, hs, hl]
    · simp [check_file, hs, hl, run_impl, hc]

/-- Witness for C6 at the structured no-bugs response. -/
theorem no_bugs_marker_no_callback_witness :
    marker_no_bugs.isPrefixOf (pyLower ("NO_BUGS".toList)) = true ∧
    (classify ("NO_BUGS".toList) = .NoBugs ∧
     hasSubstring ("bug".toList) (pyLower ("NO_BUGS".toList)) = true ∧
     (check_file true ("a.py".toList) 100 (.ok (List.replicate 100 'a'))
        (.success ("NO_BUGS".toList))).callbackCalls = []) :=
  ⟨by decide,
   no_bugs_marker_no_callback true ("NO_BUGS".toList) ("a.py".toList) 100
     (List.replicate 100 'a') (by decide)⟩

/-- C7: a file whose size exceeds the 50000-byte threshold is never passed
to the analyzer - `analyzeCalled` is false and no callback fires -
whatever its content, read outcome, or the service's behaviour. -/
theorem oversized_file_never_analyzed (reg : Bool) (p : PyStr) (size : Nat)
    (read : ReadResult) (gen : GenerateResult) (h : 50000 < size) :
    (check_file reg p size read gen).analyzeCalled = false ∧
    (check_file reg p size read gen).callbackCalls = [] := by
  simp [check_file, h]

/-- Witness for C7 at the spec's 60000-byte scenario. -/
theorem oversized_file_never_analyzed_witness :
    (50000 : Nat) < 60000 ∧
    ((check_file true ("big.py".toList) 60000
        (.ok (List.replicate 100 'a'))
        (.success ("BUGS_FOUND: x".toList))).analyzeCalled = false ∧
     (check_file true ("big.py".toList) 60000
        (.ok (List.replicate 100 'a'))
        (.success ("BUGS_FOUND: x".toList))).callbackCalls = []) :=
  ⟨by decide,
   oversized_file_never_analyzed true ("big.py".toList) 60000
     (.ok (List.replicate 100 'a')) (.success ("BUGS_FOUND: x".toList))
     (by decide)⟩

/-- C1: the claim fails on the code.  When the external service raises,
`run_impl` converts the exception into the report string
"Error during analysis: ..." (line 85); that string starts with neither
marker but contains the fallback indicator word "error" (line 204), so
`_check_file` classifies it as suspicious and invokes the registered
bugs-found callback (lines 205-208) - the failure does take the
notification path. -/
theorem service_exception_fires_callback :
    run_impl (.raises ("boom".toList)) =
      "Error during analysis: boom".toList ∧
    classify ("Error during analysis: boom".toList) = .Unknown ∧
    (check_file true ("a.py".toList) 100 (.ok (List.replicate 100 'a'))
        (.raises ("boom".toList))).callbackCalls =
      [("a.py".toList, "Error during analysis: boom".toList)] :=
  ⟨by decide, by decide, by decide⟩

/-- C2 counterexample: an enumeration failure at the very start of a cycle
(zero entries processed) makes `get_python_files` return the empty partial
set; the cycle is not abandoned - `last_files` is replaced by that empty
snapshot, so the previously seen file `a.py` is reported as new again on
the next successful cycle. -/
theorem enumeration_failure_changes_observed_set :
    (monitor_cycle {"a.py".toList}
        (get_python_files ["a.py".toList] (some 0))).2 ≠
      ({"a.py".toList} : Finset PyStr) ∧
    ("a.py".toList) ∈
      (monitor_cycle
        ((monitor_cycle {"a.py".toList}
            (get_python_files ["a.py".toList] (some 0))).2)
        (get_python_files ["a.py".toList] none)).1 := by
  decide

/-- C2 amended: an enumeration failure is caught inside
`_get_python_files`, which returns the partial set collected before the
exception; the cycle proceeds with that partial snapshot and the observed
set is replaced by it, so every previously seen file absent from the
partial snapshot (but still in the workspace) becomes new again on the
next successful cycle. -/
theorem enumeration_failure_partial_snapshot (walk : List PyStr) (k : Nat)
    (last : Finset PyStr) (f : PyStr)
    (_hlast : f ∈ last)
    (hmiss : f ∉ get_python_files walk (some k))
    (hin : f ∈ get_python_files walk none) :
    (monitor_cycle last (get_python_files walk (some k))).2 =
      get_python_files walk (some k) ∧
    f ∈ (monitor_cycle
          ((monitor_cycle last (get_python_files walk (some k))).2)
          (get_python_files walk none)).1 := by
  refine ⟨rfl, ?_⟩
  simp only [monitor_cycle, Finset.mem_sdiff]
  exact ⟨hin, hmiss⟩

/-- Witness for the amended C2 on a one-file workspace whose enumeration
fails before any entry is processed. -/
theorem enumeration_failure_partial_snapshot_witness :
    ("a.py".toList) ∈ ({"a.py".toList} : Finset PyStr) ∧
    ("a.py".toList) ∉ get_python_files ["a.py".toList] (some 0) ∧
    ("a.py".toList) ∈ get_python_files ["a.py".toList] none ∧
    ((monitor_cycle {"a.py".toList}
        (get_python_files ["a.py".toList] (some 0))).2 =
      get_python_files ["a.py".toList] (some 0) ∧
     ("a.py".toList) ∈
      (monitor_cycle
        ((monitor_cycle {"a.py".toList}
            (get_python_files ["a.py".toList] (some 0))).2)
        (get_python_files ["a.py".toList] none)).1) :=
  ⟨by decide, by decide, by decide,
   enumeration_failure_partial_snapshot ["a.py".toList] 0 {"a.py".toList}
     ("a.py".toList) (by decide) (by decide) (by decide)⟩

/-- C3 counterexample: a 60000-byte file is size-skipped in the cycle that
first sees it (`analyzeCalled` is false), yet its path is absorbed into
the observed snapshot at the end of that cycle, so on the next cycle -
with the file still present and unchanged - it is not in `new_files` and
is not size-checked again, contradicting the claim that it is treated as
new each cycle. -/
theorem skipped_file_not_rechecked :
    (check_file true ("big.py".toList) 60000 (.ok (List.replicate 100 'a'))
        (.success ("NO_BUGS".toList))).analyzeCalled = false ∧
    ("big.py".toList) ∈ (monitor_cycle ∅ {"big.py".toList}).1 ∧
    ("big.py".toList) ∉
      (monitor_cycle (monitor_cycle ∅ {"big.py".toList}).2
        {"big.py".toList}).1 := by
  decide

/-- C3 amended: a file skipped by the size or minimum-length filter is
indeed not recorded in any separate exclusion memory, but its path is
absorbed into the observed snapshot at the end of the cycle like any
other new file, so while it remains present and the snapshot is unchanged
it is never size/length-checked again; it would only be re-examined after
leaving a snapshot and reappearing. -/
theorem skipped_file_absorbed (reg : Bool) (last current : Finset PyStr)
    (f : PyStr) (size : Nat) (read : ReadResult) (gen : GenerateResult)
    (hf : f ∈ current)
    (_hskip : (check_file reg f size read gen).analyzeCalled = false) :
    f ∈ (monitor_cycle last current).2 ∧
    f ∉ (monitor_cycle (monitor_cycle last current).2 current).1 := by
  refine ⟨hf, ?_⟩
  simp [monitor_cycle, Finset.sdiff_self]

/-- Witness for the amended C3 at the 60000-byte scenario file. -/
theorem skipped_file_absorbed_witness :
    ("big.py".toList) ∈ ({"big.py".toList} : Finset PyStr) ∧
    (check_file true ("big.py".toList) 60000 (.ok (List.replicate 100 'a'))
        (.success ("NO_BUGS".toList))).analyzeCalled = false ∧
    (("big.py".toList) ∈ (monitor_cycle ∅ {"big.py".toList}).2 ∧
     ("big.py".toList) ∉
      (monitor_cycle (monitor_cycle ∅ {"big.py".toList}).2
        {"big.py".toList}).1) :=
  ⟨by decide, by decide,
   skipped_file_absorbed true ∅ {"big.py".toList} ("big.py".toList) 60000
     (.ok (List.replicate 100 'a')) (.success ("NO_BUGS".toList))
     (by decide) (by decide)⟩

/-- C8: `start` on a running scheduler is the identity - no second monitor
task is created - and along every sequence of lifecycle operations from
the initial state the number of live monitor tasks never exceeds one. -/
theorem start_noop_single_task :
    (∀ s : SchedulerState, s.is_running = true → start s = s) ∧
    (∀ ops : List Op, (runOps ops).liveTasks ≤ 1) := by
  constructor
  · intro s h
    simp [start, h]
  · intro ops
    have hinv := foldl_applyOp_inv ops ⟨false, 0⟩ (by simp)
    rw [runOps] at *
    rw [hinv]
    split <;> omega

/-- Witness for C8: a second start call on a running scheduler changes
nothing, and two successive starts leave a single live task. -/
theorem start_noop_single_task_witness :
    start ⟨true, 1⟩ = ⟨true, 1⟩ ∧
    (runOps [.opStart, .opStart]).liveTasks ≤ 1 :=
  ⟨start_noop_single_task.1 ⟨true, 1⟩ rfl,
   start_noop_single_task.2 [.opStart, .opStart]⟩

/-- C9: running the scan logic a second time over an unchanged snapshot
yields an empty new-files set - the snapshot minus the observed set is
empty once the observed set has been replaced by that same snapshot. -/
theorem second_cycle_no_new_files (last current : Finset PyStr) :
    (monitor_cycle (monitor_cycle last current).2 current).1 = ∅ := by
  simp [monitor_cycle, Finset.sdiff_self]

/-- C10: a file whose read raises a transient I/O error is not analyzed in
that cycle and triggers no callback, yet its path - being in the
enumeration snapshot - is absorbed into the observed set at the end of the
cycle, so it is never in `new_files` again while the snapshot still
contains it. -/
theorem read_failure_never_retried (reg : Bool) (p : PyStr) (size : Nat)
    (gen : GenerateResult) (last current : Finset PyStr)
    (hp : p ∈ current) :
    (check_file reg p size .ioError gen).analyzeCalled = false ∧
    (check_file reg p size .ioError gen).callbackCalls = [] ∧
    p ∈ (monitor_cycle last current).2 ∧
    p ∉ (monitor_cycle (monitor_cycle last current).2 current).1 := by
  have hcheck : check_file reg p size .ioError gen = ⟨false, []⟩ := by
    by_cases hs : 50000 < size <;> simp [check_file, hs]
  refine ⟨by rw [hcheck], by rw [hcheck], hp, ?_⟩
  simp [monitor_cycle, Finset.sdiff_self]

/-- Witness for C10 on a one-file workspace whose read fails. -/
theorem read_failure_never_retried_witness :
    ("a.py".toList) ∈ ({"a.py".toList} : Finset PyStr) ∧
    ((check_file true ("a.py".toList) 100 .ioError
        (.success ("NO_BUGS".toList))).analyzeCalled = false ∧
     (check_file true ("a.py".toList) 100 .ioError
        (.success ("NO_BUGS".toList))).callbackCalls = [] ∧
     ("a.py".toList) ∈ (monitor_cycle ∅ {"a.py".toList}).2 ∧
     ("a.py".toList) ∉
      (monitor_cycle (monitor_cycle ∅ {"a.py".toList}).2
        {"a.py".toList}).1) :=
  ⟨by decide,
   read_failure_never_retried true ("a.py".toList) 100
     (.success ("NO_BUGS".toList)) ∅ {"a.py".toList} (by decide)⟩

end BugHunter
